import Mathlib

/-!
Verification development for the ChatLead onboarding/login service
(Renan-Politano/supabase-js).  The repository holds several revisions of
the same Express app; the richest revision (the one with compensating
rollback, `src/unnamed/part_001`, first document) is embedded as
`onboarding`.  Two further revisions that the claims cite are embedded as
`onboardingCF` (the revision of `src/index.js` that creates the Client row
before the auth identity) and `onboardingMsg` (the earlier revision of
`src/index.js` whose success response carries only a message).  The two
login handlers are embedded as `loginBcrypt` (self-hosted hash comparison)
and `loginAuth` (Supabase Auth sign-in).

External collaborators (identity provider, record store, password hasher)
are out of scope for the repository itself; each external call's outcome is
supplied by an environment record (`Env`, `EnvNR`) and the handlers are
pure functions from payload and environment to a triple of HTTP response,
trace of attempted external operations, and final record-store state.
-/

/-- JavaScript truthiness of an optional string request field: `!x` is
true exactly when the field is absent or the empty string.  Mirrors the
`if (!full_name || ...)` checks in every revision. -/
def present (o : Option String) : Bool :=
  !(o.getD "" == "")

/-- `onlyDigits` on a present string: `s.replace(/\D+/g, '')`, i.e. keep
only the ASCII digit characters (JS `\D` is `[^0-9]`). -/
def onlyDigitsStr (s : String) : String :=
  String.mk (s.data.filter Char.isDigit)

/-- `const onlyDigits = (s) => (s || '').toString().replace(/\D+/g, '')`
from src/unnamed/part_001 line 52: an absent field is treated as `''`. -/
def onlyDigits (s : Option String) : String :=
  onlyDigitsStr (s.getD "")

/-- The characters matched by the JS `\s` class that can occur in the
ASCII payloads modelled here (JS `\s` also covers Unicode spaces, which no
claim exercises). -/
def jsSpace (c : Char) : Bool :=
  c == ' ' || c == '\t' || c == '\n' || c == '\r' || c == '\x0b' || c == '\x0c'

/-- `(phone || '').replace(/\s+/g, '').replace(/[\(\)\-\.]/g, '')` from
src/unnamed/part_001 lines 54-56: strip whitespace, then strip the four
characters `(`, `)`, `-`, `.`. -/
def stripPhoneStr (s : String) : String :=
  String.mk ((s.data.filter (fun c => !jsSpace c)).filter
    (fun c => !(c == '(' || c == ')' || c == '-' || c == '.')))

/-- Phone normalization applied to the optional request field. -/
def normalizedPhone (o : Option String) : String :=
  stripPhoneStr (o.getD "")

/-- Modelled from the spec: the Credential Hasher of section 6
(`hash(plaintext) -> digest`) is an external collaborator whose code is
not in the repository; it is idealized as an injective digest so that
`compare(plaintext, digest)` succeeds exactly on the hashed plaintext. -/
def bcryptHash (p : String) : String :=
  "bcrypt10$" ++ p

/-- Modelled from the spec: `compare(plaintext, digest) -> bool` of the
Credential Hasher (section 6), `bcrypt.compare` in the source. -/
def bcryptCompare (p digest : String) : Bool :=
  digest == bcryptHash p

/-- One attempted call to an external collaborator (identity provider or
record store).  `createAuth` stands for the auth-identity creation step
(`supabase.auth.signUp` in the rollback revision,
`supabase.auth.admin.createUser` in the others); `updateAuth` is the
`auth.admin.updateUserById` metadata update; the `delete*` constructors
are the compensating deletions. -/
inductive Op where
  | createAuth
  | insertClient
  | updateAuth
  | insertUser
  | insertContact
  | insertCompany
  | insertLink
  | deleteAuth
  | deleteClient
  | deleteUser
  | deleteContact
  | deleteCompany
deriving DecidableEq, Repr

/-- The create (non-delete, non-update) operations, for statements about
the order in which records are created. -/
def Op.isCreate : Op → Bool
  | .createAuth | .insertClient | .insertUser
  | .insertContact | .insertCompany | .insertLink => true
  | _ => false

/-- The compensating delete operations. -/
def Op.isDelete : Op → Bool
  | .deleteAuth | .deleteClient | .deleteUser
  | .deleteContact | .deleteCompany => true
  | _ => false

/-- Request body of `POST /onboarding`; every field is an optional string
(absent JSON field = `none`). -/
structure Payload where
  client_type : Option String
  full_name : Option String
  company_name : Option String
  document : Option String
  email : Option String
  password : Option String
  phone : Option String
deriving DecidableEq, Repr

/-- Row of the `clients` table as inserted by the rollback revision
(src/unnamed/part_001 lines 74-85). -/
structure ClientRow where
  id : String
  full_name : String
  company_name : Option String
  document : String
  email : String
  phone : String
  client_type : String
deriving DecidableEq, Repr

/-- Row of the `users` table (src/unnamed/part_001 lines 110-120). -/
structure UserRow where
  id : String
  client_id : String
  id_auth : String
  full_name : String
  email : String
  password_hash : String
deriving DecidableEq, Repr

/-- Row of the `contacts` table (src/unnamed/part_001 lines 176-186). -/
structure ContactRow where
  id : String
  client_id : String
  full_name : String
  phone : String
  email : String
  responsible_id : String
deriving DecidableEq, Repr

/-- Row of the `companies` table (src/unnamed/part_001 lines 158-167). -/
structure CompanyRow where
  id : String
  client_id : String
  name : String
  cnpj : String
  responsible_id : String
deriving DecidableEq, Repr

/-- Record-store state observable after one onboarding request: at most
one row per table is touched by a single request.  `auth` is the
provider-side identity (by id); `link` is the `contact_company` row as a
(contact_id, company_id) pair. -/
structure DB where
  auth : Option String := none
  client : Option ClientRow := none
  user : Option UserRow := none
  contact : Option ContactRow := none
  company : Option CompanyRow := none
  link : Option (String × String) := none
deriving DecidableEq, Repr

/-- JSON response of `POST /onboarding`: the fields that any revision ever
places in the body (absent field = `none`). -/
structure Response where
  status : Nat
  error : Option String := none
  message : Option String := none
  client_id : Option String := none
  user_id : Option String := none
  company_id : Option String := none
  contact_id : Option String := none
deriving DecidableEq, Repr

/-- Outcomes the external collaborators give to each call of the rollback
revision.  Create operations return an error message or a generated id
(`signUp` may also succeed without returning a user, the
`suData?.user?.id` null case).  The `del*` flags say whether the
corresponding compensating delete actually removes the record; the code
ignores that outcome (`try { await ... } catch (_) {}`). -/
structure Env where
  signUp : Except String (Option String)
  insertClient : Except String String
  updateAuth : Except String Unit
  insertUser : Except String String
  insertContact : Except String String
  insertCompany : Except String String
  insertLink : Except String Unit
  delAuth : Bool
  delClient : Bool
  delUser : Bool
  delContact : Bool
  delCompany : Bool
deriving Repr

/-- `try { await supabase.auth.admin.deleteUser(authUserId) } catch (_) {}`:
the deletion is attempted and its outcome ignored; the identity disappears
only if the provider honoured the call. -/
def tryDelAuth (e : Env) (db : DB) : DB :=
  if e.delAuth then { db with auth := none } else db

/-- `try { await supabase.from('clients').delete().eq('id', client_id) } catch (_) {}` -/
def tryDelClient (e : Env) (db : DB) : DB :=
  if e.delClient then { db with client := none } else db

/-- `try { await supabase.from('users').delete().eq('id', user_id) } catch (_) {}` -/
def tryDelUser (e : Env) (db : DB) : DB :=
  if e.delUser then { db with user := none } else db

/-- `try { await supabase.from('contacts').delete().eq('id', contactData.id) } catch (_) {}` -/
def tryDelContact (e : Env) (db : DB) : DB :=
  if e.delContact then { db with contact := none } else db

/-- `try { await supabase.from('companies').delete().eq('id', companyData.id) } catch (_) {}` -/
def tryDelCompany (e : Env) (db : DB) : DB :=
  if e.delCompany then { db with company := none } else db

/-- Steps 3-7 of the rollback revision (src/unnamed/part_001 lines
58-215), reached once validation passed: signUp, clients insert,
auth-metadata update, users insert, then the per-type business records,
each later step gated on the previous one and each failure rolling back
the records created so far in the order the source writes the deletions. -/
def onboardingSteps (e : Env) (p : Payload) : Response × List Op × DB :=
  let doc := onlyDigits p.document
  let ph := normalizedPhone p.phone
  match e.signUp with
  | .error m => ({ status := 400, error := some m }, [Op.createAuth], {})
  | .ok none =>
      ({ status := 400, error := some "Auth user not returned by signUp." },
       [Op.createAuth], {})
  | .ok (some aid) =>
    match e.insertClient with
    | .error m =>
        ({ status := 400, error := some m },
         [Op.createAuth, Op.insertClient, Op.deleteAuth],
         tryDelAuth e { auth := some aid })
    | .ok cid =>
      let crow : ClientRow :=
        { id := cid
          full_name := p.full_name.getD ""
          company_name := if p.client_type == some "company" then p.company_name else none
          document := doc
          email := p.email.getD ""
          phone := ph
          client_type := p.client_type.getD "" }
      match e.updateAuth with
      | .error m =>
          ({ status := 400, error := some m },
           [Op.createAuth, Op.insertClient, Op.updateAuth,
            Op.deleteAuth, Op.deleteClient],
           tryDelClient e (tryDelAuth e { auth := some aid, client := some crow }))
      | .ok _ =>
        match e.insertUser with
        | .error m =>
            ({ status := 400, error := some m },
             [Op.createAuth, Op.insertClient, Op.updateAuth, Op.insertUser,
              Op.deleteAuth, Op.deleteClient],
             tryDelClient e (tryDelAuth e { auth := some aid, client := some crow }))
        | .ok uid =>
          let urow : UserRow :=
            { id := uid, client_id := cid, id_auth := aid
              full_name := p.full_name.getD ""
              email := p.email.getD ""
              password_hash := bcryptHash (p.password.getD "") }
          if p.client_type == some "individual" then
            match e.insertContact with
            | .error m =>
                ({ status := 400, error := some m },
                 [Op.createAuth, Op.insertClient, Op.updateAuth, Op.insertUser,
                  Op.insertContact, Op.deleteAuth, Op.deleteUser, Op.deleteClient],
                 tryDelClient e (tryDelUser e (tryDelAuth e
                   { auth := some aid, client := some crow, user := some urow })))
            | .ok ctid =>
                ({ status := 201
                   message := some "Cadastro iniciado com sucesso! Enviamos um e-mail para confirmação."
                   client_id := some cid, user_id := some uid },
                 [Op.createAuth, Op.insertClient, Op.updateAuth, Op.insertUser,
                  Op.insertContact],
                 { auth := some aid, client := some crow, user := some urow
                   contact := some { id := ctid, client_id := cid
                                     full_name := p.full_name.getD ""
                                     phone := ph, email := p.email.getD ""
                                     responsible_id := uid } })
          else
            match e.insertCompany with
            | .error m =>
                ({ status := 400, error := some m },
                 [Op.createAuth, Op.insertClient, Op.updateAuth, Op.insertUser,
                  Op.insertCompany, Op.deleteAuth, Op.deleteUser, Op.deleteClient],
                 tryDelClient e (tryDelUser e (tryDelAuth e
                   { auth := some aid, client := some crow, user := some urow })))
            | .ok coid =>
              let corow : CompanyRow :=
                { id := coid, client_id := cid
                  name := p.company_name.getD ""
                  cnpj := doc, responsible_id := uid }
              match e.insertContact with
              | .error m =>
                  ({ status := 400, error := some m },
                   [Op.createAuth, Op.insertClient, Op.updateAuth, Op.insertUser,
                    Op.insertCompany, Op.insertContact,
                    Op.deleteCompany, Op.deleteAuth, Op.deleteUser, Op.deleteClient],
                   tryDelClient e (tryDelUser e (tryDelAuth e (tryDelCompany e
                     { auth := some aid, client := some crow, user := some urow
                       company := some corow }))))
              | .ok ctid =>
                let ctrow : ContactRow :=
                  { id := ctid, client_id := cid
                    full_name := p.full_name.getD ""
                    phone := ph, email := p.email.getD ""
                    responsible_id := uid }
                match e.insertLink with
                | .error m =>
                    ({ status := 400, error := some m },
                     [Op.createAuth, Op.insertClient, Op.updateAuth, Op.insertUser,
                      Op.insertCompany, Op.insertContact, Op.insertLink,
                      Op.deleteContact, Op.deleteCompany, Op.deleteAuth,
                      Op.deleteUser, Op.deleteClient],
                     tryDelClient e (tryDelUser e (tryDelAuth e (tryDelCompany e
                       (tryDelContact e
                         { auth := some aid, client := some crow, user := some urow
                           company := some corow, contact := some ctrow })))))
                | .ok _ =>
                    ({ status := 201
                       message := some "Cadastro iniciado com sucesso! Enviamos um e-mail para confirmação."
                       client_id := some cid, user_id := some uid
                       company_id := some coid, contact_id := some ctid },
                     [Op.createAuth, Op.insertClient, Op.updateAuth, Op.insertUser,
                      Op.insertCompany, Op.insertContact, Op.insertLink],
                     { auth := some aid, client := some crow, user := some urow
                       company := some corow, contact := some ctrow
                       link := some (ctid, coid) })

/-- `POST /onboarding` of the rollback revision (src/unnamed/part_001
lines 24-223): per-type validation first (lines 39-49), then the step
chain.  Result: (HTTP response, trace of attempted external calls, final
record-store state). -/
def onboarding (e : Env) (p : Payload) : Response × List Op × DB :=
  if p.client_type == some "individual" then
    if !(present p.full_name && present p.document && present p.email
          && present p.password && present p.phone) then
      ({ status := 400, error := some "Missing required fields for individual." }, [], {})
    else onboardingSteps e p
  else if p.client_type == some "company" then
    if !(present p.full_name && present p.company_name && present p.document
          && present p.email && present p.password && present p.phone) then
      ({ status := 400, error := some "Missing required fields for company." }, [], {})
    else onboardingSteps e p
  else
    ({ status := 400,
       error := some "Invalid client_type. Must be \x27individual\x27 or \x27company\x27." }, [], {})

/-- Outcomes of the external calls for the two revisions without rollback
(`onboardingCF`, `onboardingMsg`).  `createUser` is
`supabase.auth.admin.createUser`, which on success returns the new user id
(`authUser.user.id`, accessed without a null guard in those revisions). -/
structure EnvNR where
  createUser : Except String String
  insertClient : Except String String
  insertUser : Except String String
  insertContact : Except String String
  insertCompany : Except String String
  insertLink : Except String Unit
deriving Repr

/-- Steps of the client-first revision (src/index.js lines 553-663):
Client row inserted first, then `auth.admin.createUser`, then the users
mirror, then the per-type business records.  No step has a compensating
rollback in this revision: on failure the records already created stay. -/
def onboardingCFSteps (e : EnvNR) (p : Payload) : Response × List Op × DB :=
  let doc := onlyDigits p.document
  let ph := stripPhoneStr (p.phone.getD "")
  match e.insertClient with
  | .error m => ({ status := 400, error := some m }, [Op.insertClient], {})
  | .ok cid =>
    let crow : ClientRow :=
      { id := cid
        full_name := p.full_name.getD ""
        company_name := if p.client_type == some "company" then p.company_name else none
        document := doc
        email := p.email.getD ""
        phone := ph
        client_type := p.client_type.getD "" }
    match e.createUser with
    | .error m =>
        ({ status := 400, error := some m },
         [Op.insertClient, Op.createAuth], { client := some crow })
    | .ok aid =>
      match e.insertUser with
      | .error m =>
          ({ status := 400, error := some m },
           [Op.insertClient, Op.createAuth, Op.insertUser],
           { client := some crow, auth := some aid })
      | .ok uid =>
        let urow : UserRow :=
          { id := uid, client_id := cid, id_auth := aid
            full_name := p.full_name.getD ""
            email := p.email.getD ""
            password_hash := bcryptHash (p.password.getD "") }
        if p.client_type == some "individual" then
          match e.insertContact with
          | .error m =>
              ({ status := 400, error := some m },
               [Op.insertClient, Op.createAuth, Op.insertUser, Op.insertContact],
               { client := some crow, auth := some aid, user := some urow })
          | .ok ctid =>
              ({ status := 201
                 message := some "Cadastro realizado com sucesso! Enviamos um e-mail para confirmação."
                 client_id := some cid, user_id := some uid },
               [Op.insertClient, Op.createAuth, Op.insertUser, Op.insertContact],
               { client := some crow, auth := some aid, user := some urow
                 contact := some { id := ctid, client_id := cid
                                   full_name := p.full_name.getD ""
                                   phone := ph, email := p.email.getD ""
                                   responsible_id := uid } })
        else
          match e.insertCompany with
          | .error m =>
              ({ status := 400, error := some m },
               [Op.insertClient, Op.createAuth, Op.insertUser, Op.insertCompany],
               { client := some crow, auth := some aid, user := some urow })
          | .ok coid =>
            let corow : CompanyRow :=
              { id := coid, client_id := cid
                name := p.company_name.getD ""
                cnpj := doc, responsible_id := uid }
            match e.insertContact with
            | .error m =>
                ({ status := 400, error := some m },
                 [Op.insertClient, Op.createAuth, Op.insertUser, Op.insertCompany,
                  Op.insertContact],
                 { client := some crow, auth := some aid, user := some urow
                   company := some corow })
            | .ok ctid =>
              let ctrow : ContactRow :=
                { id := ctid, client_id := cid
                  full_name := p.full_name.getD ""
                  phone := ph, email := p.email.getD ""
                  responsible_id := uid }
              match e.insertLink with
              | .error m =>
                  ({ status := 400, error := some m },
                   [Op.insertClient, Op.createAuth, Op.insertUser, Op.insertCompany,
                    Op.insertContact, Op.insertLink],
                   { client := some crow, auth := some aid, user := some urow
                     company := some corow, contact := some ctrow })
              | .ok _ =>
                  ({ status := 201
                     message := some "Cadastro realizado com sucesso! Enviamos um e-mail para confirmação."
                     client_id := some cid, user_id := some uid
                     company_id := some coid, contact_id := some ctid },
                   [Op.insertClient, Op.createAuth, Op.insertUser, Op.insertCompany,
                    Op.insertContact, Op.insertLink],
                   { client := some crow, auth := some aid, user := some urow
                     company := some corow, contact := some ctrow
                     link := some (ctid, coid) })

/-- `POST /onboarding` of the client-first revision (src/index.js lines
528-669): same per-type validation and normalization as the rollback
revision, but the Client row is inserted FIRST and the auth identity is
created afterwards with `app_metadata.client_id` already set; there is no
compensating rollback, so records created before a failing step remain. -/
def onboardingCF (e : EnvNR) (p : Payload) : Response × List Op × DB :=
  if p.client_type == some "individual" then
    if !(present p.full_name && present p.document && present p.email
          && present p.password && present p.phone) then
      ({ status := 400, error := some "Missing required fields for individual." }, [], {})
    else onboardingCFSteps e p
  else if p.client_type == some "company" then
    if !(present p.full_name && present p.company_name && present p.document
          && present p.email && present p.password && present p.phone) then
      ({ status := 400, error := some "Missing required fields for company." }, [], {})
    else onboardingCFSteps e p
  else
    ({ status := 400,
       error := some "Invalid client_type. Must be \x27individual\x27 or \x27company\x27." }, [], {})

/-- Steps of the earlier message-only revision (src/index.js lines
49-143): `auth.admin.createUser` first, then the Client row with the RAW
document and phone (this revision performs no normalization), then the
users mirror, then the per-type records.  No rollback; every success
response carries only a message, with no generated identifiers. -/
def onboardingMsgSteps (e : EnvNR) (p : Payload) : Response × List Op × DB :=
  match e.createUser with
  | .error m => ({ status := 400, error := some m }, [Op.createAuth], {})
  | .ok aid =>
    match e.insertClient with
    | .error m =>
        ({ status := 400, error := some m },
         [Op.createAuth, Op.insertClient], { auth := some aid })
    | .ok cid =>
      let crow : ClientRow :=
        { id := cid
          full_name := p.full_name.getD ""
          company_name := if p.client_type == some "company" then p.company_name else none
          document := p.document.getD ""
          email := p.email.getD ""
          phone := p.phone.getD ""
          client_type := p.client_type.getD "" }
      match e.insertUser with
      | .error m =>
          ({ status := 400, error := some m },
           [Op.createAuth, Op.insertClient, Op.insertUser],
           { auth := some aid, client := some crow })
      | .ok uid =>
        let urow : UserRow :=
          { id := uid, client_id := cid, id_auth := aid
            full_name := p.full_name.getD ""
            email := p.email.getD ""
            password_hash := bcryptHash (p.password.getD "") }
        if p.client_type == some "individual" then
          match e.insertContact with
          | .error m =>
              ({ status := 400, error := some m },
               [Op.createAuth, Op.insertClient, Op.insertUser, Op.insertContact],
               { auth := some aid, client := some crow, user := some urow })
          | .ok ctid =>
              ({ status := 201
                 message := some "Cadastro realizado com sucesso! Confira seu e-mail para confirmação." },
               [Op.createAuth, Op.insertClient, Op.insertUser, Op.insertContact],
               { auth := some aid, client := some crow, user := some urow
                 contact := some { id := ctid, client_id := cid
                                   full_name := p.full_name.getD ""
                                   phone := p.phone.getD "", email := p.email.getD ""
                                   responsible_id := uid } })
        else
          match e.insertCompany with
          | .error m =>
              ({ status := 400, error := some m },
               [Op.createAuth, Op.insertClient, Op.insertUser, Op.insertCompany],
               { auth := some aid, client := some crow, user := some urow })
          | .ok coid =>
            let corow : CompanyRow :=
              { id := coid, client_id := cid
                name := p.company_name.getD ""
                cnpj := p.document.getD "", responsible_id := uid }
            match e.insertContact with
            | .error m =>
                ({ status := 400, error := some m },
                 [Op.createAuth, Op.insertClient, Op.insertUser, Op.insertCompany,
                  Op.insertContact],
                 { auth := some aid, client := some crow, user := some urow
                   company := some corow })
            | .ok ctid =>
              let ctrow : ContactRow :=
                { id := ctid, client_id := cid
                  full_name := p.full_name.getD ""
                  phone := p.phone.getD "", email := p.email.getD ""
                  responsible_id := uid }
              match e.insertLink with
              | .error m =>
                  ({ status := 400, error := some m },
                   [Op.createAuth, Op.insertClient, Op.insertUser, Op.insertCompany,
                    Op.insertContact, Op.insertLink],
                   { auth := some aid, client := some crow, user := some urow
                     company := some corow, contact := some ctrow })
              | .ok _ =>
                  ({ status := 201
                     message := some "Cadastro realizado com sucesso! Confira seu e-mail para confirmação." },
                   [Op.createAuth, Op.insertClient, Op.insertUser, Op.insertCompany,
                    Op.insertContact, Op.insertLink],
                   { auth := some aid, client := some crow, user := some urow
                     company := some corow, contact := some ctrow
                     link := some (ctid, coid) })

/-- `POST /onboarding` of the earlier message-only revision (src/index.js
lines 24-150): per-type validation identical to the other revisions, then
the step chain of `onboardingMsgSteps`. -/
def onboardingMsg (e : EnvNR) (p : Payload) : Response × List Op × DB :=
  if p.client_type == some "individual" then
    if !(present p.full_name && present p.document && present p.email
          && present p.password && present p.phone) then
      ({ status := 400, error := some "Missing required fields for individual." }, [], {})
    else onboardingMsgSteps e p
  else if p.client_type == some "company" then
    if !(present p.full_name && present p.company_name && present p.document
          && present p.email && present p.password && present p.phone) then
      ({ status := 400, error := some "Missing required fields for company." }, [], {})
    else onboardingMsgSteps e p
  else
    ({ status := 400,
       error := some "Invalid client_type. Must be \x27individual\x27 or \x27company\x27." }, [], {})

/-- Row of the `usuarios` table used by the self-hosted-hash login variant
(src/index.js lines 243-253 insert it; lines 344-363 read it). -/
structure UsuarioRow where
  id : String
  id_cliente : String
  nome : String
  email : String
  senha_hash : String
  role : String
deriving DecidableEq, Repr

/-- Response of `POST /login` in the self-hosted-hash variant. -/
structure LoginBResp where
  status : Nat
  error : Option String := none
  usuario : Option UsuarioRow := none
deriving DecidableEq, Repr

/-- `.from('usuarios').select('*').eq('email', email).single()`: succeeds
exactly when the equality filter matches a single row. -/
def singleUsuarioByEmail (rows : List UsuarioRow) (email : String) : Option UsuarioRow :=
  match rows.filter (fun r => r.email == email) with
  | [r] => some r
  | _ => none

/-- `POST /login` of the self-hosted-hash variant (src/index.js lines
344-363): look the user up by email in `usuarios` (404s as a 400
"Usuário não encontrado"), then `bcrypt.compare` against the stored
`senha_hash` (mismatch is a distinct 401 "Senha inválida"); on success the
whole selected row is returned as `usuario`. -/
def loginBcrypt (rows : List UsuarioRow) (email password : Option String) : LoginBResp :=
  if !(present email) || !(present password) then
    { status := 400, error := some "Email e senha obrigatórios" }
  else
    match singleUsuarioByEmail rows (email.getD "") with
    | none => { status := 400, error := some "Usuário não encontrado" }
    | some u =>
      if !(bcryptCompare (password.getD "") u.senha_hash) then
        { status := 401, error := some "Senha inválida" }
      else
        { status := 200, usuario := some u }

/-- Modelled from the spec: one credential record of the Identity
Provider (section 6: `authenticate(email, password) -> {token, id} |
error`); the provider itself is an external collaborator with no code in
the repository. -/
structure Identity where
  email : String
  password : String
  token : String
deriving DecidableEq, Repr

/-- Modelled from the spec: `supabase.auth.signInWithPassword` per the
Identity Provider interface of section 6 — sign-in succeeds exactly on a
stored email/password pair, and every failure (unknown email or wrong
password alike) is the same single error class. -/
def signInWithPassword (ids : List Identity) (email password : String) :
    Except Unit String :=
  match ids.find? (fun i => i.email == email && i.password == password) with
  | some i => .ok i.token
  | none => .error ()

/-- `.from('users').select('*').eq('email', email).single()` for the
Supabase-Auth login variant. -/
def singleUserByEmail (rows : List UserRow) (email : String) : Option UserRow :=
  match rows.filter (fun r => r.email == email) with
  | [r] => some r
  | _ => none

/-- Response of `POST /login` in the Supabase-Auth variant. -/
structure LoginAResp where
  status : Nat
  error : Option String := none
  token : Option String := none
  user : Option UserRow := none
deriving DecidableEq, Repr

/-- `POST /login` of the Supabase-Auth variant (src/unnamed/part_000
lines 118-145): authenticate via the Identity Provider (any failure is the
single 401 "Invalid credentials."), then fetch the full `users` row by
email (missing row is a 401 "User not found in database."); on success
return the session token and the whole selected row. -/
def loginAuth (ids : List Identity) (rows : List UserRow)
    (email password : Option String) : LoginAResp :=
  if !(present email) || !(present password) then
    { status := 400, error := some "Email and password are required." }
  else
    match signInWithPassword ids (email.getD "") (password.getD "") with
    | .error _ => { status := 401, error := some "Invalid credentials." }
    | .ok token =>
      match singleUserByEmail rows (email.getD "") with
      | none => { status := 401, error := some "User not found in database." }
      | some u => { status := 200, token := some token, user := some u }

/-- The create-operation subsequence of a run's trace. -/
def createsOf (r : Response × List Op × DB) : List Op :=
  r.2.1.filter Op.isCreate

/-- The compensating-delete subsequence of a run's trace. -/
def deletesOf (r : Response × List Op × DB) : List Op :=
  r.2.1.filter Op.isDelete

/-- The company example payload of the spec (section 8, end-to-end
example). -/
def pMaria : Payload :=
  { client_type := some "company"
    full_name := some "Maria Souza"
    company_name := some "XPTO LTDA"
    document := some "12.345.678/0001-99"
    email := some "maria@xpto.com"
    password := some "secret123"
    phone := some "(11) 99999-9999" }

/-- A payload with an unrecognized client type. -/
def pLlc : Payload :=
  { pMaria with client_type := some "llc" }

/-- Environment in which every external call succeeds (and every
compensating delete, were one attempted, would succeed too). -/
def envAllOk : Env :=
  { signUp := .ok (some "auth-1")
    insertClient := .ok "cli-1"
    updateAuth := .ok ()
    insertUser := .ok "usr-1"
    insertContact := .ok "cnt-1"
    insertCompany := .ok "cmp-1"
    insertLink := .ok ()
    delAuth := true, delClient := true, delUser := true
    delContact := true, delCompany := true }

/-- Environment in which only the `contact_company` link insert fails. -/
def envLinkFail : Env :=
  { envAllOk with insertLink := .error "link insert failed" }

/-- Environment in which only the contacts insert fails. -/
def envContactFail : Env :=
  { envAllOk with insertContact := .error "contact insert failed" }

/-- All-success environment for the revisions without rollback. -/
def envNROk : EnvNR :=
  { createUser := .ok "auth-1"
    insertClient := .ok "cli-1"
    insertUser := .ok "usr-1"
    insertContact := .ok "cnt-1"
    insertCompany := .ok "cmp-1"
    insertLink := .ok () }

/-- Replace only the outcomes of the compensating delete calls of an
environment, leaving every create outcome unchanged — used to state that
the handler's response and attempted calls are insensitive to rollback
failures. -/
def setDel (e : Env) (b1 b2 b3 b4 b5 : Bool) : Env :=
  { e with delAuth := b1, delClient := b2, delUser := b3, delContact := b4, delCompany := b5 }

/-- A stored `usuarios` row for the self-hosted-hash login variant. -/
def anaRow : UsuarioRow :=
  { id := "u1", id_cliente := "c1", nome := "Ana"
    email := "ana@x.com", senha_hash := bcryptHash "correct-pw", role := "admin" }

/-- A one-user `usuarios` table. -/
def usuariosDb : List UsuarioRow := [anaRow]

/-- The corresponding `users` mirror row for the Supabase-Auth variant. -/
def anaUserRow : UserRow :=
  { id := "u1", client_id := "c1", id_auth := "auth-1"
    full_name := "Ana", email := "ana@x.com"
    password_hash := bcryptHash "correct-pw" }

/-- A one-user `users` table. -/
def usersDb : List UserRow := [anaUserRow]

/-- Identity-provider contents holding Ana's credential. -/
def idsDb : List Identity :=
  [{ email := "ana@x.com", password := "correct-pw", token := "tok-1" }]

/-- C8: document normalization reduces its input to digits only and is
idempotent — `onlyDigitsStr (onlyDigitsStr s) = onlyDigitsStr s` for every
string, an already-digits-only string is returned unchanged, and
`onlyDigitsStr "123.456.789-00" = "12345678900"`. -/
theorem onlyDigits_idempotent_spec :
    (∀ s : String, onlyDigitsStr (onlyDigitsStr s) = onlyDigitsStr s) ∧
    (∀ s : String, (∀ c ∈ s.data, c.isDigit) → onlyDigitsStr s = s) ∧
    onlyDigitsStr "123.456.789-00" = "12345678900" := by
  refine ⟨?_, ?_, by rfl⟩
  · intro s
    cases s with
    | mk data =>
      simp [onlyDigitsStr, List.filter_filter]
  · intro s h
    cases s with
    | mk data =>
      simp only [onlyDigitsStr]
      exact congrArg String.mk (List.filter_eq_self.mpr h)

/-- Witness for C8: the already-digits-only string "0042" is returned
unchanged. -/
theorem onlyDigits_idempotent_spec_witness :
    onlyDigitsStr "0042" = "0042" :=
  onlyDigits_idempotent_spec.2.1 "0042" (by decide)

/-- C4: a payload whose `client_type` is neither "individual" nor
"company", or that is missing (or supplies as the empty string) a field
required for its declared type, makes the orchestrator perform zero
external calls and yields a 400 response carrying an error message.
(`present` is false exactly on absent or empty-string fields.) -/
theorem validation_rejects_before_external_calls (e : Env) (p : Payload)
    (h : (p.client_type ≠ some "individual" ∧ p.client_type ≠ some "company") ∨
         (p.client_type = some "individual" ∧
           ¬(present p.full_name ∧ present p.document ∧ present p.email ∧
             present p.password ∧ present p.phone)) ∨
         (p.client_type = some "company" ∧
           ¬(present p.full_name ∧ present p.company_name ∧ present p.document ∧
             present p.email ∧ present p.password ∧ present p.phone))) :
    (onboarding e p).2.1 = [] ∧ (onboarding e p).1.status = 400 ∧
      (onboarding e p).1.error.isSome := by
  rcases h with ⟨h1, h2⟩ | ⟨h1, h2⟩ | ⟨h1, h2⟩
  · have hi : (p.client_type == some "individual") = false := by
      simp [beq_iff_eq, h1]
    have hc : (p.client_type == some "company") = false := by
      simp [beq_iff_eq, h2]
    simp [onboarding, hi, hc]
  · have hb : (present p.full_name && present p.document && present p.email
        && present p.password && present p.phone) = false := by
      cases hcase : (present p.full_name && present p.document && present p.email
        && present p.password && present p.phone) with
      | false => rfl
      | true => exact absurd (by simpa [Bool.and_eq_true, and_assoc] using hcase) h2
    have hi : (p.client_type == some "individual") = true := by
      simp [beq_iff_eq, h1]
    simp [onboarding, hi, hb]
  · have hb : (present p.full_name && present p.company_name && present p.document
        && present p.email && present p.password && present p.phone) = false := by
      cases hcase : (present p.full_name && present p.company_name && present p.document
        && present p.email && present p.password && present p.phone) with
      | false => rfl
      | true => exact absurd (by simpa [Bool.and_eq_true, and_assoc] using hcase) h2
    have hi : (p.client_type == some "individual") = false := by
      rw [h1]; rfl
    have hc : (p.client_type == some "company") = true := by
      simp [beq_iff_eq, h1]
    simp [onboarding, hi, hc, hb]

/-- Witness for C4: the client type "llc" is rejected with no external
call. -/
theorem validation_rejects_before_external_calls_witness :
    ((some "llc" : Option String) ≠ some "individual" ∧
      (some "llc" : Option String) ≠ some "company") ∧
    ((onboarding envAllOk pLlc).2.1 = [] ∧ (onboarding envAllOk pLlc).1.status = 400 ∧
      (onboarding envAllOk pLlc).1.error.isSome) :=
  ⟨by decide, validation_rejects_before_external_calls envAllOk pLlc (Or.inl (by decide))⟩

/-- C1: in the company flow, if the contacts insert fails after the
Company row was created, the handler attempts the deletion of the Company
row, the AuthIdentity, the User row and the Client row; when the store
honours those deletions all four records are absent afterwards, and the
response is a 400 carrying the contact insert's own error message. -/
theorem contact_failure_company_rollback (e : Env) (p : Payload)
    (hty : p.client_type = some "company")
    (hv : present p.full_name ∧ present p.company_name ∧ present p.document ∧
          present p.email ∧ present p.password ∧ present p.phone)
    (a cid uid coid m : String)
    (h1 : e.signUp = .ok (some a)) (h2 : e.insertClient = .ok cid)
    (h3 : e.updateAuth = .ok ()) (h4 : e.insertUser = .ok uid)
    (h5 : e.insertCompany = .ok coid) (h6 : e.insertContact = .error m)
    (d1 : e.delAuth = true) (d2 : e.delClient = true) (d3 : e.delUser = true)
    (d4 : e.delCompany = true) :
    (onboarding e p).1 = { status := 400, error := some m } ∧
    Op.deleteCompany ∈ (onboarding e p).2.1 ∧
    Op.deleteAuth ∈ (onboarding e p).2.1 ∧
    Op.deleteUser ∈ (onboarding e p).2.1 ∧
    Op.deleteClient ∈ (onboarding e p).2.1 ∧
    (onboarding e p).2.2.auth = none ∧ (onboarding e p).2.2.client = none ∧
    (onboarding e p).2.2.user = none ∧ (onboarding e p).2.2.company = none := by
  obtain ⟨v1, v2, v3, v4, v5, v6⟩ := hv
  have hi : (p.client_type == some "individual") = false := by rw [hty]; rfl
  have hc : (p.client_type == some "company") = true := by rw [hty]; rfl
  simp [onboarding, onboardingSteps, hi, hc, h1, h2, h3, h4, h5, h6,
    tryDelAuth, tryDelClient, tryDelUser, tryDelCompany, tryDelContact,
    d1, d2, d3, d4, v1, v2, v3, v4, v5, v6]

/-- Witness for C1, at the spec's example payload with only the contacts
insert failing. -/
theorem contact_failure_company_rollback_witness :
    (onboarding envContactFail pMaria).1 =
      { status := 400, error := some "contact insert failed" } ∧
    Op.deleteCompany ∈ (onboarding envContactFail pMaria).2.1 ∧
    Op.deleteAuth ∈ (onboarding envContactFail pMaria).2.1 ∧
    Op.deleteUser ∈ (onboarding envContactFail pMaria).2.1 ∧
    Op.deleteClient ∈ (onboarding envContactFail pMaria).2.1 ∧
    (onboarding envContactFail pMaria).2.2.auth = none ∧
    (onboarding envContactFail pMaria).2.2.client = none ∧
    (onboarding envContactFail pMaria).2.2.user = none ∧
    (onboarding envContactFail pMaria).2.2.company = none :=
  contact_failure_company_rollback envContactFail pMaria rfl (by decide)
    "auth-1" "cli-1" "usr-1" "cmp-1" "contact insert failed"
    rfl rfl rfl rfl rfl rfl rfl rfl rfl rfl

/-- Counterexample for C2: when the link insert fails at the spec's
example payload, the deletions are attempted in the order contact,
company, auth identity, user, client — not the claimed reverse creation
order (company before contact, auth identity last). -/
theorem rollback_order_counterexample :
    deletesOf (onboarding envLinkFail pMaria) =
      [Op.deleteContact, Op.deleteCompany, Op.deleteAuth,
       Op.deleteUser, Op.deleteClient] ∧
    deletesOf (onboarding envLinkFail pMaria) ≠
      [Op.deleteCompany, Op.deleteContact, Op.deleteUser,
       Op.deleteClient, Op.deleteAuth] :=
  ⟨rfl, by decide⟩

/-- C2 as amended: whenever a step of the company (or individual) flow
fails, the deletion of every earlier step's persistent record is
attempted, but in the source's order — contact (when created), then
company (when created), then auth identity, then user, then client; the
auth identity is deleted in the middle of the sequence, not last. -/
theorem rollback_undo_all_steps (e : Env) (p : Payload)
    (hty : p.client_type = some "company")
    (hv : present p.full_name ∧ present p.company_name ∧ present p.document ∧
          present p.email ∧ present p.password ∧ present p.phone) :
    (∀ a m, e.signUp = .ok (some a) → e.insertClient = .error m →
        deletesOf (onboarding e p) = [Op.deleteAuth]) ∧
    (∀ a cid m, e.signUp = .ok (some a) → e.insertClient = .ok cid →
        e.updateAuth = .error m →
        deletesOf (onboarding e p) = [Op.deleteAuth, Op.deleteClient]) ∧
    (∀ a cid m, e.signUp = .ok (some a) → e.insertClient = .ok cid →
        e.updateAuth = .ok () → e.insertUser = .error m →
        deletesOf (onboarding e p) = [Op.deleteAuth, Op.deleteClient]) ∧
    (∀ a cid uid m, e.signUp = .ok (some a) → e.insertClient = .ok cid →
        e.updateAuth = .ok () → e.insertUser = .ok uid →
        e.insertCompany = .error m →
        deletesOf (onboarding e p) =
          [Op.deleteAuth, Op.deleteUser, Op.deleteClient]) ∧
    (∀ a cid uid coid m, e.signUp = .ok (some a) → e.insertClient = .ok cid →
        e.updateAuth = .ok () → e.insertUser = .ok uid →
        e.insertCompany = .ok coid → e.insertContact = .error m →
        deletesOf (onboarding e p) =
          [Op.deleteCompany, Op.deleteAuth, Op.deleteUser, Op.deleteClient]) ∧
    (∀ a cid uid coid ctid m, e.signUp = .ok (some a) → e.insertClient = .ok cid →
        e.updateAuth = .ok () → e.insertUser = .ok uid →
        e.insertCompany = .ok coid → e.insertContact = .ok ctid →
        e.insertLink = .error m →
        deletesOf (onboarding e p) =
          [Op.deleteContact, Op.deleteCompany, Op.deleteAuth,
           Op.deleteUser, Op.deleteClient]) ∧
    (∀ (q : Payload) a cid uid m, q.client_type = some "individual" →
        (present q.full_name ∧ present q.document ∧ present q.email ∧
          present q.password ∧ present q.phone) →
        e.signUp = .ok (some a) → e.insertClient = .ok cid →
        e.updateAuth = .ok () → e.insertUser = .ok uid →
        e.insertContact = .error m →
        deletesOf (onboarding e q) =
          [Op.deleteAuth, Op.deleteUser, Op.deleteClient]) := by
  obtain ⟨v1, v2, v3, v4, v5, v6⟩ := hv
  have hi : (p.client_type == some "individual") = false := by rw [hty]; rfl
  have hc : (p.client_type == some "company") = true := by rw [hty]; rfl
  refine ⟨?_, ?_, ?_, ?_, ?_, ?_, ?_⟩
  · intro a m h1 h2
    simp [onboarding, onboardingSteps, deletesOf, Op.isDelete, hi, hc,
      h1, h2, v1, v2, v3, v4, v5, v6]
  · intro a cid m h1 h2 h3
    simp [onboarding, onboardingSteps, deletesOf, Op.isDelete, hi, hc,
      h1, h2, h3, v1, v2, v3, v4, v5, v6]
  · intro a cid m h1 h2 h3 h4
    simp [onboarding, onboardingSteps, deletesOf, Op.isDelete, hi, hc,
      h1, h2, h3, h4, v1, v2, v3, v4, v5, v6]
  · intro a cid uid m h1 h2 h3 h4 h5
    simp [onboarding, onboardingSteps, deletesOf, Op.isDelete, hi, hc,
      h1, h2, h3, h4, h5, v1, v2, v3, v4, v5, v6]
  · intro a cid uid coid m h1 h2 h3 h4 h5 h6
    simp [onboarding, onboardingSteps, deletesOf, Op.isDelete, hi, hc,
      h1, h2, h3, h4, h5, h6, v1, v2, v3, v4, v5, v6]
  · intro a cid uid coid ctid m h1 h2 h3 h4 h5 h6 h7
    simp [onboarding, onboardingSteps, deletesOf, Op.isDelete, hi, hc,
      h1, h2, h3, h4, h5, h6, h7, v1, v2, v3, v4, v5, v6]
  · intro q a cid uid m hq hqv h1 h2 h3 h4 h5
    obtain ⟨w1, w2, w3, w4, w5⟩ := hqv
    have hqi : (q.client_type == some "individual") = true := by rw [hq]; rfl
    simp [onboarding, onboardingSteps, deletesOf, Op.isDelete, hqi,
      h1, h2, h3, h4, h5, w1, w2, w3, w4, w5]

/-- Witness for the amended C2: link failure at the example payload
attempts all five deletions in the source's order. -/
theorem rollback_undo_all_steps_witness :
    deletesOf (onboarding envLinkFail pMaria) =
      [Op.deleteContact, Op.deleteCompany, Op.deleteAuth,
       Op.deleteUser, Op.deleteClient] :=
  (rollback_undo_all_steps envLinkFail pMaria rfl (by decide)).2.2.2.2.2.1
    "auth-1" "cli-1" "usr-1" "cmp-1" "cnt-1" "link insert failed"
    rfl rfl rfl rfl rfl rfl rfl


/-- The response and the list of attempted external calls produced by the
step chain do not depend on whether the compensating deletions succeed:
each `try { ... } catch (_) {}` swallows the deletion's outcome. -/
theorem onboardingSteps_ignores_del (e : Env) (p : Payload)
    (b1 b2 b3 b4 b5 : Bool) :
    ((onboardingSteps (setDel e b1 b2 b3 b4 b5) p).1 = (onboardingSteps e p).1) ∧
    ((onboardingSteps (setDel e b1 b2 b3 b4 b5) p).2.1 = (onboardingSteps e p).2.1) := by
  obtain ⟨su, icl, ua, iu, ict, ico, il, d1, d2, d3, d4, d5⟩ := e
  cases su with
  | error m => exact ⟨rfl, rfl⟩
  | ok o =>
    cases o with
    | none => exact ⟨rfl, rfl⟩
    | some a =>
      cases icl with
      | error m => exact ⟨rfl, rfl⟩
      | ok cid =>
        cases ua with
        | error m => exact ⟨rfl, rfl⟩
        | ok u =>
          cases iu with
          | error m => exact ⟨rfl, rfl⟩
          | ok uid =>
            cases hq : (p.client_type == some "individual") with
            | true =>
              cases ict with
              | error m => simp [onboardingSteps, setDel, hq]
              | ok ctid => simp [onboardingSteps, setDel, hq]
            | false =>
              cases ico with
              | error m => simp [onboardingSteps, setDel, hq]
              | ok coid =>
                cases ict with
                | error m => simp [onboardingSteps, setDel, hq]
                | ok ctid =>
                  cases il with
                  | error m => simp [onboardingSteps, setDel, hq]
                  | ok u2 => simp [onboardingSteps, setDel, hq]

/-- C3: compensating rollback is best effort and invisible to the caller —
for any outcomes of the delete calls (`setDel` replaces them), the
response and the list of attempted external calls are exactly those of
the original run (every remaining rollback action is still attempted and
no rollback failure is surfaced), and when the link insert is the
original failure the response still carries the link insert's message
whatever the deletions did. -/
theorem rollback_failures_not_surfaced (e : Env) (p : Payload)
    (b1 b2 b3 b4 b5 : Bool) :
    ((onboarding (setDel e b1 b2 b3 b4 b5) p).1 = (onboarding e p).1) ∧
    ((onboarding (setDel e b1 b2 b3 b4 b5) p).2.1 = (onboarding e p).2.1) ∧
    (∀ a cid uid coid ctid m,
      p.client_type = some "company" →
      (present p.full_name ∧ present p.company_name ∧ present p.document ∧
        present p.email ∧ present p.password ∧ present p.phone) →
      e.signUp = .ok (some a) → e.insertClient = .ok cid →
      e.updateAuth = .ok () → e.insertUser = .ok uid →
      e.insertCompany = .ok coid → e.insertContact = .ok ctid →
      e.insertLink = .error m →
      (onboarding (setDel e b1 b2 b3 b4 b5) p).1 =
        { status := 400, error := some m }) := by
  have hmain : ((onboarding (setDel e b1 b2 b3 b4 b5) p).1 = (onboarding e p).1) ∧
      ((onboarding (setDel e b1 b2 b3 b4 b5) p).2.1 = (onboarding e p).2.1) := by
    cases h1 : (p.client_type == some "individual") with
    | true =>
      cases h2 : (present p.full_name && present p.document && present p.email
          && present p.password && present p.phone) with
      | false => simp [onboarding, h1, h2]
      | true =>
        simpa [onboarding, h1, h2] using onboardingSteps_ignores_del e p b1 b2 b3 b4 b5
    | false =>
      cases h2 : (p.client_type == some "company") with
      | false => simp [onboarding, h1, h2]
      | true =>
        cases h3 : (present p.full_name && present p.company_name && present p.document
            && present p.email && present p.password && present p.phone) with
        | false => simp [onboarding, h1, h2, h3]
        | true =>
          simpa [onboarding, h1, h2, h3] using onboardingSteps_ignores_del e p b1 b2 b3 b4 b5
  refine ⟨hmain.1, hmain.2, ?_⟩
  intro a cid uid coid ctid m hty hv h1 h2 h3 h4 h5 h6 h7
  obtain ⟨v1, v2, v3, v4, v5, v6⟩ := hv
  have hi : (p.client_type == some "individual") = false := by rw [hty]; rfl
  have hc : (p.client_type == some "company") = true := by rw [hty]; rfl
  simp [onboarding, onboardingSteps, setDel, hi, hc, h1, h2, h3, h4, h5, h6, h7,
    v1, v2, v3, v4, v5, v6]

/-- Witness for C3: at the example payload with the link insert failing
and every compensating deletion failing too, the caller still receives a
400 with the link insert's message, and the attempted calls match the
original run's. -/
theorem rollback_failures_not_surfaced_witness :
    ((onboarding (setDel envLinkFail false false false false false) pMaria).1 =
      (onboarding envLinkFail pMaria).1) ∧
    ((onboarding (setDel envLinkFail false false false false false) pMaria).2.1 =
      (onboarding envLinkFail pMaria).2.1) ∧
    (onboarding (setDel envLinkFail false false false false false) pMaria).1 =
      { status := 400, error := some "link insert failed" } := by
  have h := rollback_failures_not_surfaced envLinkFail pMaria false false false false false
  exact ⟨h.1, h.2.1, h.2.2 "auth-1" "cli-1" "usr-1" "cmp-1" "cnt-1"
    "link insert failed" rfl (by decide) rfl rfl rfl rfl rfl rfl rfl⟩

/-- Counterexample for C5: in the client-first revision (src/index.js
lines 528-669) a fully successful company onboarding issues the Client
insert BEFORE the auth-identity creation, so the fixed order
"AuthIdentity first, then Client" does not hold for that revision. -/
theorem client_before_auth_counterexample :
    (onboardingCF envNROk pMaria).2.1 =
      [Op.insertClient, Op.createAuth, Op.insertUser, Op.insertCompany,
       Op.insertContact, Op.insertLink] ∧
    (onboardingCF envNROk pMaria).2.1.head? = some Op.insertClient ∧
    Op.insertClient ≠ Op.createAuth :=
  ⟨rfl, rfl, by decide⟩

/-- C5 as amended: in the rollback revision the create operations are
issued in the fixed order AuthIdentity, Client, User, Company, Contact,
link, each gated on every previous step's success and stopping at the
first failure; in the client-first revision the same gating holds but the
Client row is created before the AuthIdentity. -/
theorem create_order_and_gating (e : Env) (ecf : EnvNR) (p : Payload)
    (hty : p.client_type = some "company")
    (hv : present p.full_name ∧ present p.company_name ∧ present p.document ∧
          present p.email ∧ present p.password ∧ present p.phone) :
    (∀ m, e.signUp = .error m →
        createsOf (onboarding e p) = [Op.createAuth]) ∧
    (e.signUp = .ok none →
        createsOf (onboarding e p) = [Op.createAuth]) ∧
    (∀ a m, e.signUp = .ok (some a) → e.insertClient = .error m →
        createsOf (onboarding e p) = [Op.createAuth, Op.insertClient]) ∧
    (∀ a cid m, e.signUp = .ok (some a) → e.insertClient = .ok cid →
        e.updateAuth = .error m →
        createsOf (onboarding e p) = [Op.createAuth, Op.insertClient]) ∧
    (∀ a cid m, e.signUp = .ok (some a) → e.insertClient = .ok cid →
        e.updateAuth = .ok () → e.insertUser = .error m →
        createsOf (onboarding e p) =
          [Op.createAuth, Op.insertClient, Op.insertUser]) ∧
    (∀ a cid uid m, e.signUp = .ok (some a) → e.insertClient = .ok cid →
        e.updateAuth = .ok () → e.insertUser = .ok uid →
        e.insertCompany = .error m →
        createsOf (onboarding e p) =
          [Op.createAuth, Op.insertClient, Op.insertUser, Op.insertCompany]) ∧
    (∀ a cid uid coid m, e.signUp = .ok (some a) → e.insertClient = .ok cid →
        e.updateAuth = .ok () → e.insertUser = .ok uid →
        e.insertCompany = .ok coid → e.insertContact = .error m →
        createsOf (onboarding e p) =
          [Op.createAuth, Op.insertClient, Op.insertUser, Op.insertCompany,
           Op.insertContact]) ∧
    (∀ a cid uid coid ctid m, e.signUp = .ok (some a) → e.insertClient = .ok cid →
        e.updateAuth = .ok () → e.insertUser = .ok uid →
        e.insertCompany = .ok coid → e.insertContact = .ok ctid →
        e.insertLink = .error m →
        createsOf (onboarding e p) =
          [Op.createAuth, Op.insertClient, Op.insertUser, Op.insertCompany,
           Op.insertContact, Op.insertLink]) ∧
    (∀ a cid uid coid ctid, e.signUp = .ok (some a) → e.insertClient = .ok cid →
        e.updateAuth = .ok () → e.insertUser = .ok uid →
        e.insertCompany = .ok coid → e.insertContact = .ok ctid →
        e.insertLink = .ok () →
        createsOf (onboarding e p) =
          [Op.createAuth, Op.insertClient, Op.insertUser, Op.insertCompany,
           Op.insertContact, Op.insertLink]) ∧
    (∀ m, ecf.insertClient = .error m →
        createsOf (onboardingCF ecf p) = [Op.insertClient]) ∧
    (∀ cid m, ecf.insertClient = .ok cid → ecf.createUser = .error m →
        createsOf (onboardingCF ecf p) = [Op.insertClient, Op.createAuth]) ∧
    (∀ cid aid m, ecf.insertClient = .ok cid → ecf.createUser = .ok aid →
        ecf.insertUser = .error m →
        createsOf (onboardingCF ecf p) =
          [Op.insertClient, Op.createAuth, Op.insertUser]) ∧
    (∀ cid aid uid m, ecf.insertClient = .ok cid → ecf.createUser = .ok aid →
        ecf.insertUser = .ok uid → ecf.insertCompany = .error m →
        createsOf (onboardingCF ecf p) =
          [Op.insertClient, Op.createAuth, Op.insertUser, Op.insertCompany]) ∧
    (∀ cid aid uid coid m, ecf.insertClient = .ok cid → ecf.createUser = .ok aid →
        ecf.insertUser = .ok uid → ecf.insertCompany = .ok coid →
        ecf.insertContact = .error m →
        createsOf (onboardingCF ecf p) =
          [Op.insertClient, Op.createAuth, Op.insertUser, Op.insertCompany,
           Op.insertContact]) ∧
    (∀ cid aid uid coid ctid, ecf.insertClient = .ok cid → ecf.createUser = .ok aid →
        ecf.insertUser = .ok uid → ecf.insertCompany = .ok coid →
        ecf.insertContact = .ok ctid → ecf.insertLink = .ok () →
        createsOf (onboardingCF ecf p) =
          [Op.insertClient, Op.createAuth, Op.insertUser, Op.insertCompany,
           Op.insertContact, Op.insertLink]) := by
  obtain ⟨v1, v2, v3, v4, v5, v6⟩ := hv
  have hi : (p.client_type == some "individual") = false := by rw [hty]; rfl
  have hc : (p.client_type == some "company") = true := by rw [hty]; rfl
  refine ⟨?_, ?_, ?_, ?_, ?_, ?_, ?_, ?_, ?_, ?_, ?_, ?_, ?_, ?_, ?_⟩
  · intro m h1
    simp [onboarding, onboardingSteps, createsOf, Op.isCreate, hi, hc,
      h1, v1, v2, v3, v4, v5, v6]
  · intro h1
    simp [onboarding, onboardingSteps, createsOf, Op.isCreate, hi, hc,
      h1, v1, v2, v3, v4, v5, v6]
  · intro a m h1 h2
    simp [onboarding, onboardingSteps, createsOf, Op.isCreate, hi, hc,
      h1, h2, v1, v2, v3, v4, v5, v6]
  · intro a cid m h1 h2 h3
    simp [onboarding, onboardingSteps, createsOf, Op.isCreate, hi, hc,
      h1, h2, h3, v1, v2, v3, v4, v5, v6]
  · intro a cid m h1 h2 h3 h4
    simp [onboarding, onboardingSteps, createsOf, Op.isCreate, hi, hc,
      h1, h2, h3, h4, v1, v2, v3, v4, v5, v6]
  · intro a cid uid m h1 h2 h3 h4 h5
    simp [onboarding, onboardingSteps, createsOf, Op.isCreate, hi, hc,
      h1, h2, h3, h4, h5, v1, v2, v3, v4, v5, v6]
  · intro a cid uid coid m h1 h2 h3 h4 h5 h6
    simp [onboarding, onboardingSteps, createsOf, Op.isCreate, hi, hc,
      h1, h2, h3, h4, h5, h6, v1, v2, v3, v4, v5, v6]
  · intro a cid uid coid ctid m h1 h2 h3 h4 h5 h6 h7
    simp [onboarding, onboardingSteps, createsOf, Op.isCreate, hi, hc,
      h1, h2, h3, h4, h5, h6, h7, v1, v2, v3, v4, v5, v6]
  · intro a cid uid coid ctid h1 h2 h3 h4 h5 h6 h7
    simp [onboarding, onboardingSteps, createsOf, Op.isCreate, hi, hc,
      h1, h2, h3, h4, h5, h6, h7, v1, v2, v3, v4, v5, v6]
  · intro m h1
    simp [onboardingCF, onboardingCFSteps, createsOf, Op.isCreate, hi, hc,
      h1, v1, v2, v3, v4, v5, v6]
  · intro cid m h1 h2
    simp [onboardingCF, onboardingCFSteps, createsOf, Op.isCreate, hi, hc,
      h1, h2, v1, v2, v3, v4, v5, v6]
  · intro cid aid m h1 h2 h3
    simp [onboardingCF, onboardingCFSteps, createsOf, Op.isCreate, hi, hc,
      h1, h2, h3, v1, v2, v3, v4, v5, v6]
  · intro cid aid uid m h1 h2 h3 h4
    simp [onboardingCF, onboardingCFSteps, createsOf, Op.isCreate, hi, hc,
      h1, h2, h3, h4, v1, v2, v3, v4, v5, v6]
  · intro cid aid uid coid m h1 h2 h3 h4 h5
    simp [onboardingCF, onboardingCFSteps, createsOf, Op.isCreate, hi, hc,
      h1, h2, h3, h4, h5, v1, v2, v3, v4, v5, v6]
  · intro cid aid uid coid ctid h1 h2 h3 h4 h5 h6
    simp [onboardingCF, onboardingCFSteps, createsOf, Op.isCreate, hi, hc,
      h1, h2, h3, h4, h5, h6, v1, v2, v3, v4, v5, v6]

/-- Witness for the amended C5: at the example payload with everything
succeeding, the rollback revision creates auth-first and the client-first
revision creates the Client row first. -/
theorem create_order_and_gating_witness :
    createsOf (onboarding envAllOk pMaria) =
      [Op.createAuth, Op.insertClient, Op.insertUser, Op.insertCompany,
       Op.insertContact, Op.insertLink] ∧
    createsOf (onboardingCF envNROk pMaria) =
      [Op.insertClient, Op.createAuth, Op.insertUser, Op.insertCompany,
       Op.insertContact, Op.insertLink] := by
  obtain ⟨-, -, -, -, -, -, -, -, c9, -, -, -, -, -, c15⟩ :=
    create_order_and_gating envAllOk envNROk pMaria rfl (by decide)
  exact ⟨c9 "auth-1" "cli-1" "usr-1" "cmp-1" "cnt-1" rfl rfl rfl rfl rfl rfl rfl,
    c15 "cli-1" "auth-1" "usr-1" "cmp-1" "cnt-1" rfl rfl rfl rfl rfl rfl⟩

/-- Counterexample for C6: in the earlier message-only revision
(src/index.js lines 24-150) a fully successful company onboarding
returns 201 with only a confirmation message — every generated identifier
is absent from the body. -/
theorem success_without_ids_counterexample :
    (onboardingMsg envNROk pMaria).1.status = 201 ∧
    (onboardingMsg envNROk pMaria).1.message =
      some "Cadastro realizado com sucesso! Confira seu e-mail para confirmação." ∧
    (onboardingMsg envNROk pMaria).1.client_id = none ∧
    (onboardingMsg envNROk pMaria).1.user_id = none ∧
    (onboardingMsg envNROk pMaria).1.company_id = none ∧
    (onboardingMsg envNROk pMaria).1.contact_id = none :=
  ⟨rfl, rfl, rfl, rfl, rfl, rfl⟩

/-- C6 as amended: in the rollback revision a fully successful company
onboarding returns 201 with non-null client_id, user_id, company_id and
contact_id plus the confirmation message, and the stored Client.document
is the digits-only normalization of the input document; every failing run
of that revision returns a body holding exactly a single error message
(the failing step's own) and no identifiers. -/
theorem company_success_response_ids (e : Env) (p : Payload)
    (hty : p.client_type = some "company")
    (hv : present p.full_name ∧ present p.company_name ∧ present p.document ∧
          present p.email ∧ present p.password ∧ present p.phone) :
    (∀ a cid uid coid ctid, e.signUp = .ok (some a) → e.insertClient = .ok cid →
        e.updateAuth = .ok () → e.insertUser = .ok uid →
        e.insertCompany = .ok coid → e.insertContact = .ok ctid →
        e.insertLink = .ok () →
        (onboarding e p).1 =
          { status := 201
            message := some "Cadastro iniciado com sucesso! Enviamos um e-mail para confirmação."
            client_id := some cid, user_id := some uid
            company_id := some coid, contact_id := some ctid } ∧
        Option.map ClientRow.document (onboarding e p).2.2.client =
          some (onlyDigits p.document)) ∧
    (∀ m, e.signUp = .error m →
        (onboarding e p).1 = { status := 400, error := some m }) ∧
    (e.signUp = .ok none →
        (onboarding e p).1 =
          { status := 400, error := some "Auth user not returned by signUp." }) ∧
    (∀ a m, e.signUp = .ok (some a) → e.insertClient = .error m →
        (onboarding e p).1 = { status := 400, error := some m }) ∧
    (∀ a cid m, e.signUp = .ok (some a) → e.insertClient = .ok cid →
        e.updateAuth = .error m →
        (onboarding e p).1 = { status := 400, error := some m }) ∧
    (∀ a cid m, e.signUp = .ok (some a) → e.insertClient = .ok cid →
        e.updateAuth = .ok () → e.insertUser = .error m →
        (onboarding e p).1 = { status := 400, error := some m }) ∧
    (∀ a cid uid m, e.signUp = .ok (some a) → e.insertClient = .ok cid →
        e.updateAuth = .ok () → e.insertUser = .ok uid →
        e.insertCompany = .error m →
        (onboarding e p).1 = { status := 400, error := some m }) ∧
    (∀ a cid uid coid m, e.signUp = .ok (some a) → e.insertClient = .ok cid →
        e.updateAuth = .ok () → e.insertUser = .ok uid →
        e.insertCompany = .ok coid → e.insertContact = .error m →
        (onboarding e p).1 = { status := 400, error := some m }) ∧
    (∀ a cid uid coid ctid m, e.signUp = .ok (some a) → e.insertClient = .ok cid →
        e.updateAuth = .ok () → e.insertUser = .ok uid →
        e.insertCompany = .ok coid → e.insertContact = .ok ctid →
        e.insertLink = .error m →
        (onboarding e p).1 = { status := 400, error := some m }) := by
  obtain ⟨v1, v2, v3, v4, v5, v6⟩ := hv
  have hi : (p.client_type == some "individual") = false := by rw [hty]; rfl
  have hc : (p.client_type == some "company") = true := by rw [hty]; rfl
  refine ⟨?_, ?_, ?_, ?_, ?_, ?_, ?_, ?_, ?_⟩
  · intro a cid uid coid ctid h1 h2 h3 h4 h5 h6 h7
    refine ⟨?_, ?_⟩ <;>
      simp [onboarding, onboardingSteps, hi, hc,
        h1, h2, h3, h4, h5, h6, h7, v1, v2, v3, v4, v5, v6]
  · intro m h1
    simp [onboarding, onboardingSteps, hi, hc, h1, v1, v2, v3, v4, v5, v6]
  · intro h1
    simp [onboarding, onboardingSteps, hi, hc, h1, v1, v2, v3, v4, v5, v6]
  · intro a m h1 h2
    simp [onboarding, onboardingSteps, hi, hc, h1, h2, v1, v2, v3, v4, v5, v6]
  · intro a cid m h1 h2 h3
    simp [onboarding, onboardingSteps, hi, hc, h1, h2, h3, v1, v2, v3, v4, v5, v6]
  · intro a cid m h1 h2 h3 h4
    simp [onboarding, onboardingSteps, hi, hc, h1, h2, h3, h4, v1, v2, v3, v4, v5, v6]
  · intro a cid uid m h1 h2 h3 h4 h5
    simp [onboarding, onboardingSteps, hi, hc, h1, h2, h3, h4, h5, v1, v2, v3, v4, v5, v6]
  · intro a cid uid coid m h1 h2 h3 h4 h5 h6
    simp [onboarding, onboardingSteps, hi, hc, h1, h2, h3, h4, h5, h6, v1, v2, v3, v4, v5, v6]
  · intro a cid uid coid ctid m h1 h2 h3 h4 h5 h6 h7
    simp [onboarding, onboardingSteps, hi, hc, h1, h2, h3, h4, h5, h6, h7, v1, v2, v3, v4, v5, v6]

/-- Witness for the amended C6: the spec's end-to-end example — the
company payload succeeds with 201, all four identifiers, and stored
Client.document "12345678000199". -/
theorem company_success_response_ids_witness :
    (onboarding envAllOk pMaria).1 =
      { status := 201
        message := some "Cadastro iniciado com sucesso! Enviamos um e-mail para confirmação."
        client_id := some "cli-1", user_id := some "usr-1"
        company_id := some "cmp-1", contact_id := some "cnt-1" } ∧
    Option.map ClientRow.document (onboarding envAllOk pMaria).2.2.client =
      some "12345678000199" := by
  obtain ⟨h1, h2⟩ :=
    (company_success_response_ids envAllOk pMaria rfl (by decide)).1
      "auth-1" "cli-1" "usr-1" "cmp-1" "cnt-1" rfl rfl rfl rfl rfl rfl rfl
  exact ⟨h1, by rw [h2]; rfl⟩

/-- C7: the stored Client row's company_name is non-null iff the client
type is company — for an individual, any supplied company_name is ignored
(the whole run is unchanged, so it is never an error) and the stored
value is null, while for a company the validated (hence non-null)
company_name is stored. -/
theorem company_name_iff_company (e : Env) (p : Payload)
    (hty : p.client_type = some "company")
    (hv : present p.full_name ∧ present p.company_name ∧ present p.document ∧
          present p.email ∧ present p.password ∧ present p.phone) :
    (∀ (q : Payload) (x : Option String), q.client_type = some "individual" →
        onboarding e { q with company_name := x } = onboarding e q) ∧
    (∀ a cid uid coid ctid, e.signUp = .ok (some a) → e.insertClient = .ok cid →
        e.updateAuth = .ok () → e.insertUser = .ok uid →
        e.insertCompany = .ok coid → e.insertContact = .ok ctid →
        e.insertLink = .ok () →
        Option.map ClientRow.company_name (onboarding e p).2.2.client =
          some p.company_name ∧ p.company_name ≠ none) ∧
    (∀ (q : Payload) a cid uid ctid, q.client_type = some "individual" →
        (present q.full_name ∧ present q.document ∧ present q.email ∧
          present q.password ∧ present q.phone) →
        e.signUp = .ok (some a) → e.insertClient = .ok cid →
        e.updateAuth = .ok () → e.insertUser = .ok uid →
        e.insertContact = .ok ctid →
        Option.map ClientRow.company_name (onboarding e q).2.2.client =
          some none) := by
  obtain ⟨v1, v2, v3, v4, v5, v6⟩ := hv
  refine ⟨?_, ?_, ?_⟩
  · intro q x hq
    have hqi : (q.client_type == some "individual") = true := by rw [hq]; rfl
    have hqc : (q.client_type == some "company") = false := by rw [hq]; rfl
    obtain ⟨su, icl, ua, iu, ict, ico, il, d1, d2, d3, d4, d5⟩ := e
    cases h2 : (present q.full_name && present q.document && present q.email
        && present q.password && present q.phone) with
    | false => simp [onboarding, hqi, h2]
    | true =>
      cases su with
      | error m => simp [onboarding, onboardingSteps, hqi, hqc, h2]
      | ok o =>
        cases o with
        | none => simp [onboarding, onboardingSteps, hqi, hqc, h2]
        | some a =>
          cases icl with
          | error m => simp [onboarding, onboardingSteps, hqi, hqc, h2]
          | ok cid =>
            cases ua with
            | error m => simp [onboarding, onboardingSteps, hqi, hqc, h2]
            | ok u =>
              cases iu with
              | error m => simp [onboarding, onboardingSteps, hqi, hqc, h2]
              | ok uid =>
                cases ict with
                | error m => simp [onboarding, onboardingSteps, hqi, hqc, h2]
                | ok ctid => simp [onboarding, onboardingSteps, hqi, hqc, h2]
  · intro a cid uid coid ctid h1 h2 h3 h4 h5 h6 h7
    have hi : (p.client_type == some "individual") = false := by rw [hty]; rfl
    have hc : (p.client_type == some "company") = true := by rw [hty]; rfl
    constructor
    · simp [onboarding, onboardingSteps, hi, hc,
        h1, h2, h3, h4, h5, h6, h7, v1, v2, v3, v4, v5, v6]
    · intro hnone
      rw [hnone] at v2
      exact absurd v2 (by simp [present])
  · intro q a cid uid ctid hq hqv h1 h2 h3 h4 h5
    obtain ⟨w1, w2, w3, w4, w5⟩ := hqv
    have hqi : (q.client_type == some "individual") = true := by rw [hq]; rfl
    have hqc : (q.client_type == some "company") = false := by rw [hq]; rfl
    simp [onboarding, onboardingSteps, hqi, hqc,
      h1, h2, h3, h4, h5, w1, w2, w3, w4, w5]

/-- Witness for C7: at the example company payload the stored company
name is "XPTO LTDA", and for the corresponding individual payload any
supplied company_name is ignored and null is stored. -/
theorem company_name_iff_company_witness :
    (onboarding envAllOk
        { pMaria with client_type := some "individual", company_name := some "IGNORED" } =
      onboarding envAllOk { pMaria with client_type := some "individual" }) ∧
    Option.map ClientRow.company_name (onboarding envAllOk pMaria).2.2.client =
      some (some "XPTO LTDA") ∧
    Option.map ClientRow.company_name
        (onboarding envAllOk { pMaria with client_type := some "individual" }).2.2.client =
      some none := by
  obtain ⟨hA, hB, hC⟩ := company_name_iff_company envAllOk pMaria rfl (by decide)
  refine ⟨?_, ?_, ?_⟩
  · exact hA { pMaria with client_type := some "individual" } (some "IGNORED") rfl
  · exact (hB "auth-1" "cli-1" "usr-1" "cmp-1" "cnt-1" rfl rfl rfl rfl rfl rfl rfl).1
  · exact hC { pMaria with client_type := some "individual" }
      "auth-1" "cli-1" "usr-1" "cnt-1" rfl (by decide) rfl rfl rfl rfl rfl

/-- Counterexample for C9: in the self-hosted-hash login variant, a wrong
password for the stored email yields 401 "Senha inválida" while a
nonexistent email yields 400 "Usuário não encontrado" — two different
responses, so the failure class reveals whether the email exists. -/
theorem login_distinguishes_email_counterexample :
    loginBcrypt usuariosDb (some "ana@x.com") (some "wrong-pw") =
      { status := 401, error := some "Senha inválida" } ∧
    loginBcrypt usuariosDb (some "bob@x.com") (some "wrong-pw") =
      { status := 400, error := some "Usuário não encontrado" } ∧
    ({ status := 401, error := some "Senha inválida" } : LoginBResp) ≠
      { status := 400, error := some "Usuário não encontrado" } :=
  ⟨rfl, rfl, by decide⟩

/-- C9 as amended: the Supabase-Auth login variant returns one fixed
undifferentiated 401 response whenever the provider rejects the pair
(wrong password and nonexistent email alike), and the stored User row on
a correct pair; the self-hosted-hash variant instead answers 400
"Usuário não encontrado" for an unknown email and 401 "Senha inválida"
for a wrong password (distinguishable responses), returning the stored
row on a correct pair. -/
theorem login_auth_undifferentiated :
    (∀ (ids : List Identity) (rows : List UserRow) (email pw : Option String),
      present email → present pw →
      signInWithPassword ids (email.getD "") (pw.getD "") = .error () →
      loginAuth ids rows email pw =
        { status := 401, error := some "Invalid credentials." }) ∧
    (∀ (ids : List Identity) (rows : List UserRow) (email pw : Option String)
        (tok : String) (u : UserRow),
      present email → present pw →
      signInWithPassword ids (email.getD "") (pw.getD "") = .ok tok →
      singleUserByEmail rows (email.getD "") = some u →
      loginAuth ids rows email pw =
        { status := 200, token := some tok, user := some u }) ∧
    (∀ (rows : List UsuarioRow) (email pw : Option String),
      present email → present pw →
      singleUsuarioByEmail rows (email.getD "") = none →
      loginBcrypt rows email pw =
        { status := 400, error := some "Usuário não encontrado" }) ∧
    (∀ (rows : List UsuarioRow) (email pw : Option String) (u : UsuarioRow),
      present email → present pw →
      singleUsuarioByEmail rows (email.getD "") = some u →
      bcryptCompare (pw.getD "") u.senha_hash = false →
      loginBcrypt rows email pw =
        { status := 401, error := some "Senha inválida" }) ∧
    (∀ (rows : List UsuarioRow) (email pw : Option String) (u : UsuarioRow),
      present email → present pw →
      singleUsuarioByEmail rows (email.getD "") = some u →
      bcryptCompare (pw.getD "") u.senha_hash = true →
      loginBcrypt rows email pw = { status := 200, usuario := some u }) := by
  refine ⟨?_, ?_, ?_, ?_, ?_⟩
  · intro ids rows email pw hp1 hp2 h
    simp [loginAuth, hp1, hp2, h]
  · intro ids rows email pw tok u hp1 hp2 h1 h2
    simp [loginAuth, hp1, hp2, h1, h2]
  · intro rows email pw hp1 hp2 h
    simp [loginBcrypt, hp1, hp2, h]
  · intro rows email pw u hp1 hp2 h1 h2
    simp [loginBcrypt, hp1, hp2, h1, h2]
  · intro rows email pw u hp1 hp2 h1 h2
    simp [loginBcrypt, hp1, hp2, h1, h2]

/-- Witness for the amended C9: wrong password and unknown email both get
the identical 401 from the Supabase-Auth variant, and the correct pair
returns Ana's stored row. -/
theorem login_auth_undifferentiated_witness :
    loginAuth idsDb usersDb (some "ana@x.com") (some "wrong-pw") =
      { status := 401, error := some "Invalid credentials." } ∧
    loginAuth idsDb usersDb (some "ghost@x.com") (some "whatever") =
      { status := 401, error := some "Invalid credentials." } ∧
    loginAuth idsDb usersDb (some "ana@x.com") (some "correct-pw") =
      { status := 200, token := some "tok-1", user := some anaUserRow } := by
  obtain ⟨h1, h2, -, -, -⟩ := login_auth_undifferentiated
  exact ⟨h1 idsDb usersDb (some "ana@x.com") (some "wrong-pw")
          (by decide) (by decide) rfl,
        h1 idsDb usersDb (some "ghost@x.com") (some "whatever")
          (by decide) (by decide) rfl,
        h2 idsDb usersDb (some "ana@x.com") (some "correct-pw") "tok-1" anaUserRow
          (by decide) (by decide) rfl rfl⟩

/-- C10: every successful login returns the full stored row selected with
star — in particular the response body carries the stored credential
digest (`senha_hash` in the self-hosted variant, `password_hash` in the
Supabase-Auth variant). -/
theorem login_returns_password_hash :
    (∀ (rows : List UsuarioRow) (email pw : Option String) (u : UsuarioRow),
      present email → present pw →
      singleUsuarioByEmail rows (email.getD "") = some u →
      bcryptCompare (pw.getD "") u.senha_hash = true →
      (loginBcrypt rows email pw).usuario = some u ∧
      Option.map UsuarioRow.senha_hash (loginBcrypt rows email pw).usuario =
        some u.senha_hash) ∧
    (∀ (ids : List Identity) (rows : List UserRow) (email pw : Option String)
        (tok : String) (u : UserRow),
      present email → present pw →
      signInWithPassword ids (email.getD "") (pw.getD "") = .ok tok →
      singleUserByEmail rows (email.getD "") = some u →
      (loginAuth ids rows email pw).user = some u ∧
      Option.map UserRow.password_hash (loginAuth ids rows email pw).user =
        some u.password_hash) := by
  constructor
  · intro rows email pw u hp1 hp2 h1 h2
    constructor <;> simp [loginBcrypt, hp1, hp2, h1, h2]
  · intro ids rows email pw tok u hp1 hp2 h1 h2
    constructor <;> simp [loginAuth, hp1, hp2, h1, h2]

/-- Witness for C10: Ana's successful logins disclose her stored bcrypt
digest in both variants. -/
theorem login_returns_password_hash_witness :
    Option.map UsuarioRow.senha_hash
        (loginBcrypt usuariosDb (some "ana@x.com") (some "correct-pw")).usuario =
      some (bcryptHash "correct-pw") ∧
    Option.map UserRow.password_hash
        (loginAuth idsDb usersDb (some "ana@x.com") (some "correct-pw")).user =
      some (bcryptHash "correct-pw") := by
  obtain ⟨h1, h2⟩ := login_returns_password_hash
  exact ⟨(h1 usuariosDb (some "ana@x.com") (some "correct-pw") anaRow
            (by decide) (by decide) rfl rfl).2,
        (h2 idsDb usersDb (some "ana@x.com") (some "correct-pw") "tok-1" anaUserRow
            (by decide) (by decide) rfl rfl).2⟩
